import Mathlib

/-!
Shallow embedding of the Dart delivery-system motion core.

The definitions below are translated from the Python sources:
  * `src/command_protocol.py` — winch serial protocol codec (status-line parser),
  * `src/stac5_manager.py`   — STAC5 drive client / motion controller / poller.

Conventions of the embedding:
  * Python floats are modelled as exact rationals (`ℚ`); every constant that
    appears in the claims (0.5, 2.5, 0.0, 10.0, 7.5, …) is exactly
    representable in binary floating point, so no rounding behaviour is lost
    on the inputs the theorems speak about.
  * `time.time()` values are passed in explicitly as rational timestamps.
  * Transport I/O is modelled by threading the device's reply for each
    exchange as an explicit parameter (`Option String`: `none` = no reply /
    timeout / transport failure) and by returning the trace of commands
    written to the wire as a `List Cmd`.
-/

namespace Dart

/-- Python's `\s` character class on ASCII text:
space, tab, newline, carriage return, vertical tab, form feed. -/
def isPySpace (c : Char) : Bool :=
  c = ' ' || c = '\t' || c = '\n' || c = '\r' || c = '\x0b' || c = '\x0c'

/-- Python's `\w` character class restricted to ASCII: letters, digits, underscore. -/
def isWordChar (c : Char) : Bool := c.isAlphanum || c = '_'

/-- The regex class `[\d.]`. -/
def isDigitDot (c : Char) : Bool := c.isDigit || c = '.'

/-- Consume an exact literal token; `some rest` on success. -/
def lit : List Char → List Char → Option (List Char)
  | [], cs => some cs
  | _ :: _, [] => none
  | p :: ps, c :: cs => if c = p then lit ps cs else none

/-- Greedy `X+`: one or more characters satisfying `p`.
Greediness is maximal munch here because in every use site the following
pattern element cannot match a character satisfying `p`. -/
def span1 (p : Char → Bool) (cs : List Char) : Option (List Char × List Char) :=
  if (cs.takeWhile p).isEmpty then none else some (cs.takeWhile p, cs.dropWhile p)

/-- The regex `-?\d+` (an optionally negated run of digits; when the
leading minus sign is taken but no digit follows, backtracking into the
sign-less alternative also fails because a minus sign is not a digit). -/
def signedDigits (cs : List Char) : Option (List Char × List Char) :=
  match cs with
  | [] => none
  | c :: rest =>
    if c = '-' then
      match span1 Char.isDigit rest with
      | some (t, r) => some (c :: t, r)
      | none => none
    else span1 Char.isDigit (c :: rest)

/-- The alternative `(Y@(-?\d+)|N)` of the HOME/WELL fields: returns the
captured digit run of the `Y@…` branch, or `none` for the `N` branch. -/
def savedField : List Char → Option (Option (List Char) × List Char)
  | [] => none
  | [c] => if c = 'N' then some (none, []) else none
  | c :: c2 :: rest2 =>
    if c = 'Y' ∧ c2 = '@' then
      match signedDigits rest2 with
      | some (t, r) => some (some t, r)
      | none => none
    else if c = 'N' then some (none, c2 :: rest2)
    else none

/-- The optional trailing group `(?:\s+KEY:([\d.]+))?`; on failure it
consumes nothing (regex backtracking out of an optional group). -/
def optVel (key : List Char) (cs : List Char) : Option (List Char) × List Char :=
  match span1 isPySpace cs with
  | none => (none, cs)
  | some (_, r1) =>
    match lit key r1 with
    | none => (none, cs)
    | some r2 =>
      match span1 isDigitDot r2 with
      | none => (none, cs)
      | some (t, r3) => (some t, r3)

/-- The capture groups of `ResponseParser.STATUS_PATTERN`. -/
structure StatusGroups where
  pos : List Char
  mode : List Char
  spd : List Char
  home : Option (List Char)
  well : Option (List Char)
  estop : Char
  vjog : Option (List Char)
  vmove : Option (List Char)
deriving DecidableEq

/-- Attempt to match `STATUS_PATTERN` starting exactly at the head of `cs`
(the pattern is unanchored at the end, trailing input is ignored). -/
def matchStatusAt (cs : List Char) : Option StatusGroups :=
  match lit "POS:".data cs with
  | none => none
  | some r0 =>
  match signedDigits r0 with
  | none => none
  | some (pos, r1) =>
  match span1 isPySpace r1 with
  | none => none
  | some (_, r2) =>
  match lit "MODE:".data r2 with
  | none => none
  | some r3 =>
  match span1 isWordChar r3 with
  | none => none
  | some (mode, r4) =>
  match span1 isPySpace r4 with
  | none => none
  | some (_, r5) =>
  match lit "SPD:".data r5 with
  | none => none
  | some r6 =>
  match span1 isDigitDot r6 with
  | none => none
  | some (spd, r7) =>
  match span1 isPySpace r7 with
  | none => none
  | some (_, r8) =>
  match lit "HOME:".data r8 with
  | none => none
  | some r9 =>
  match savedField r9 with
  | none => none
  | some (home, r10) =>
  match span1 isPySpace r10 with
  | none => none
  | some (_, r11) =>
  match lit "WELL:".data r11 with
  | none => none
  | some r12 =>
  match savedField r12 with
  | none => none
  | some (well, r13) =>
  match span1 isPySpace r13 with
  | none => none
  | some (_, r14) =>
  match lit "ESTOP:".data r14 with
  | none => none
  | some r15 =>
  match r15 with
  | [] => none
  | e :: r16 =>
    if e = '0' || e = '1' then
      let v1 := optVel "VJOG:".data r16
      let v2 := optVel "VMOVE:".data v1.2
      some ⟨pos, mode, spd, home, well, e, v1.1, v2.1⟩
    else none

/-- Embeds `re.search`: try the pattern at each start position, leftmost first. -/
def searchStatus : List Char → Option StatusGroups
  | [] => matchStatusAt []
  | c :: cs =>
    match matchStatusAt (c :: cs) with
    | some g => some g
    | none => searchStatus cs

/-- Numeric value of a run of decimal digits. -/
def digitsToNat (cs : List Char) : Nat :=
  cs.foldl (fun a c => a * 10 + (c.toNat - '0'.toNat)) 0

/-- Python `int(...)` on a capture of `-?\d+`. -/
def digitsToInt : List Char → Int
  | '-' :: cs => -(digitsToNat cs : Int)
  | cs => (digitsToNat cs : Int)

/-- Python `float(...)` on a capture of `[\d.]+`, as an exact rational:
at most one dot, and at least one digit somewhere (Python raises
`ValueError` on `"."` or on several dots; that failure is modelled as
`none`). -/
def parseUFloat (cs : List Char) : Option ℚ :=
  match cs.splitOn '.' with
  | [a] => if a.isEmpty then none else some (digitsToNat a : ℚ)
  | [a, b] =>
    if a.isEmpty && b.isEmpty then none
    else some ((digitsToNat a : ℚ) + (digitsToNat b : ℚ) / (10 ^ b.length : ℚ))
  | _ => none

/-- Python `str.strip()` (both ends, `\s` characters). -/
def pyStripL (cs : List Char) : List Char :=
  (((cs.dropWhile isPySpace).reverse.dropWhile isPySpace)).reverse

/-- Python `str.strip()` at `String` level. -/
def pyStrip (s : String) : String := String.mk (pyStripL s.data)

/-- Constant `config.DEFAULT_JOG_SPEED_RPS = 10.0`. -/
def DEFAULT_JOG_SPEED_RPS : ℚ := 10

/-- Constant `config.DEFAULT_MOVE_SPEED_RPS = 7.5`. -/
def DEFAULT_MOVE_SPEED_RPS : ℚ := 15/2

/-- Enum `command_protocol.MotionMode`. -/
inductive MotionMode where
  | IDLE
  | JOG
  | MOVE
  | UNKNOWN
deriving DecidableEq

/-- Constructor call `MotionMode(mode_str)` with the `ValueError → UNKNOWN` fallback of
`parse_status`. -/
def MotionMode.ofValue (s : String) : MotionMode :=
  if s = "IDLE" then .IDLE
  else if s = "JOG" then .JOG
  else if s = "MOVE" then .MOVE
  else .UNKNOWN

/-- Dataclass `command_protocol.WinchStatus` with its dataclass defaults. -/
structure WinchStatus where
  position : Int := 0
  mode : MotionMode := .IDLE
  speed_rps : ℚ := 0
  home_saved : Bool := false
  home_position : Option Int := none
  well_saved : Bool := false
  well_position : Option Int := none
  estop_active : Bool := false
  max_jog_rps : ℚ := DEFAULT_JOG_SPEED_RPS
  max_move_rps : ℚ := DEFAULT_MOVE_SPEED_RPS
  raw_response : String := ""
deriving DecidableEq

/-- Embeds `ResponseParser.parse_status`.  `home_saved = home_full.startswith("Y")`
coincides with the digit capture being present, since the `Y@` branch of the
pattern always captures a nonempty digit run. -/
def parse_status (response : String) : Option WinchStatus :=
  if response = "" then none
  else
    let s := pyStrip response
    match searchStatus s.data with
    | none => none
    | some g => do
      let spd ← parseUFloat g.spd
      let vjog ← match g.vjog with
        | some t => parseUFloat t
        | none => some DEFAULT_JOG_SPEED_RPS
      let vmove ← match g.vmove with
        | some t => parseUFloat t
        | none => some DEFAULT_MOVE_SPEED_RPS
      some { position := digitsToInt g.pos
             mode := MotionMode.ofValue (String.mk g.mode)
             speed_rps := spd
             home_saved := g.home.isSome
             home_position := g.home.map digitsToInt
             well_saved := g.well.isSome
             well_position := g.well.map digitsToInt
             estop_active := g.estop == '1'
             max_jog_rps := vjog
             max_move_rps := vmove
             raw_response := s }

/-- Does `tok` occur as a contiguous substring? -/
def occurs (tok : List Char) : List Char → Bool
  | [] => tok.isEmpty
  | c :: cs => tok.isPrefixOf (c :: cs) || occurs tok cs

/-- Substring test at `String` level (used to state "the line contains the
required field marker `KEY:`"). -/
def hasTok (tok s : String) : Bool := occurs tok.data s.data

/-! ## STAC5 drive client (`src/stac5_manager.py`)

The manager's mutable attributes are collected in `MState`; each public
method becomes a function `MState → … → Bool × MState × List Cmd`
returning the Python method's boolean result, the updated state and the
trace of SCL commands written to the socket during the call.  Device
replies are threaded in as explicit `Option String` arguments (`none`
models "no reply": a timeout, a transport failure, or not being
connected); encoder reads are threaded in as the already-parsed
`Option Int` the corresponding `get_…` helper would return. -/

/-- One SCL command frame: mnemonic plus optional numeric argument.
Numeric arguments are kept exact; the `f"...{v:.1f}"` decimal formatting
of velocities does not matter to any property proved here. -/
inductive Cmd where
  | AC (v : ℚ)
  | DE (v : ℚ)
  | ME
  | MD
  | AR
  | ST
  | SK
  | SJ
  | CJ
  | DI (v : Int)
  | JS (v : ℚ)
  | VE (v : ℚ)
  | FL
  | FP (steps : Int)
  | SP (steps : Int)
  | EP
  | IE
  | AL
  | SC
  | IV
  | EPzero
deriving DecidableEq

/-- Commands that start or parameterize a motion (velocity set, distance set,
jog speed, position sync, feed commands, commence jog).  Status reads and
stop commands are not motion commands. -/
def isMoveCmd : Cmd → Bool
  | .DI _ => true
  | .JS _ => true
  | .VE _ => true
  | .FL => true
  | .FP _ => true
  | .SP _ => true
  | .CJ => true
  | _ => false

/-- The `STAC5Status` dataclass with its construction defaults. -/
structure STAC5Status where
  connected : Bool := false
  encoder_position : Int := 0
  alarm_code : String := "0000"
  status_code : String := "0000"
  is_moving : Bool := false
  motor_enabled : Bool := false
  home_position : Option Int := none
  well_position : Option Int := none
  jog_velocity : ℚ := 2
  move_velocity : ℚ := 3/2
deriving DecidableEq

/-- The manager's mutable attributes (socket, threads and callbacks are not
data; the `_polling` machinery is modelled separately by `pollAlarms`). -/
structure MState where
  connected : Bool := false
  status : STAC5Status := {}
  last_move_time : ℚ := 0
  last_move_command_time : ℚ := 0
  jog_active : Bool := false
  jog_stop_time : ℚ := 0
deriving DecidableEq

/-- Constant `_min_command_interval = 0.5` (seconds between move commands). -/
def min_command_interval : ℚ := 1/2

/-- Constant `_jog_decel_lockout = 0.5` (lockout after a jog stop). -/
def jog_decel_lockout : ℚ := 1/2

/-- Constant `gear_ratio = 2.5` (EG/ER = 20000/8000), exact in binary floating point. -/
def gear_ratio : ℚ := 5/2

/-- Python `int(q)` on a float: truncation toward zero. -/
def pyInt (q : ℚ) : ℤ := if 0 ≤ q then ⌊q⌋ else ⌈q⌉

/-- Method `_encoder_to_motor`: `int(encoder_counts * self.gear_ratio)`. -/
def encoder_to_motor (encoder_counts : Int) : Int :=
  pyInt ((encoder_counts : ℚ) * gear_ratio)

/-- Method `send_command`: returns `None` without touching the wire when not
connected, otherwise writes the frame and returns the device's reply.
(The mid-exchange exception path, which also flips the connected flag,
is subsumed in a `none` reply; no claim depends on that flag flip.) -/
def sendCommand (st : MState) (cmd : Cmd) (resp : Option String) :
    Option String × List Cmd :=
  if st.connected then (resp, [cmd]) else (none, [])

/-- Method `get_encoder_position` (an `EP` exchange): `ep` is the integer parsed
out of the reply, `none` when the reply was missing or unparsable. -/
def get_encoder_position (st : MState) (ep : Option Int) :
    Option Int × List Cmd :=
  if st.connected then (ep, [Cmd.EP]) else (none, [])

/-- Method `_sync_positions`: read `EP`; when it parses, write `SP` with the
encoder value scaled to motor steps. -/
def sync_positions (st : MState) (ep : Option Int) (rSP : Option String) :
    List Cmd :=
  match get_encoder_position st ep with
  | (some e, t1) => t1 ++ (sendCommand st (Cmd.SP (encoder_to_motor e)) rSP).2
  | (none, t1) => t1

/-- Method `disconnect` (state part): closes the socket, then resets the
connection, motion, motor-enabled, alarm, status and encoder fields of
`STAC5Status`.  (Stopping the poll thread and closing the socket have no
representation in `MState`.) -/
def disconnect (st : MState) : MState :=
  { st with
    connected := false
    status := { st.status with
                connected := false
                is_moving := false
                motor_enabled := false
                alarm_code := "0000"
                status_code := "0000"
                encoder_position := 0 } }

/-- Method `stop`: send `ST`, clear jog state, start the jog lockout, drop the
motion flag. -/
def stop (st : MState) (now : ℚ) (rST : Option String) :
    Bool × MState × List Cmd :=
  let (r, t) := sendCommand st Cmd.ST rST
  (r.isSome,
   { st with
     jog_active := false
     jog_stop_time := now
     status.is_moving := false },
   t)

/-- Method `stop_kill`: send `SK`, then the same state updates as `stop`. -/
def stop_kill (st : MState) (now : ℚ) (rSK : Option String) :
    Bool × MState × List Cmd :=
  let (r, t) := sendCommand st Cmd.SK rSK
  (r.isSome,
   { st with
     jog_active := false
     jog_stop_time := now
     status.is_moving := false },
   t)

/-- Method `jog_start(direction)`: rejected with no I/O when already jogging or
inside the deceleration lockout window; otherwise mark jogging active,
send direction (`DI1`/`DI-1`), jog speed and `CJ`; roll the active flag
back when `CJ` gets no reply. -/
def jog_start (st : MState) (direction : Int) (now : ℚ)
    (rDI rJS rCJ : Option String) : Bool × MState × List Cmd :=
  if st.jog_active then (false, st, [])
  else if now - st.jog_stop_time < jog_decel_lockout then (false, st, [])
  else
    let st1 := { st with jog_active := true }
    let dirCmd := Cmd.DI (if direction ≥ 0 then 1 else -1)
    let t1 := (sendCommand st1 dirCmd rDI).2
    let t2 := (sendCommand st1 (Cmd.JS st1.status.jog_velocity) rJS).2
    let (r, t3) := sendCommand st1 Cmd.CJ rCJ
    match r with
    | some _ =>
      (true,
       { st1 with status.is_moving := true, last_move_time := now },
       t1 ++ t2 ++ t3)
    | none => (false, { st1 with jog_active := false }, t1 ++ t2 ++ t3)

/-- Method `jog_stop`: always accepted; clears jog state and records the stop
time before sending `SJ`. -/
def jog_stop (st : MState) (now : ℚ) (rSJ : Option String) :
    Bool × MState × List Cmd :=
  let st1 := { st with
               jog_active := false
               jog_stop_time := now
               status.is_moving := false }
  (true, st1, (sendCommand st1 Cmd.SJ rSJ).2)

/-- Method `move_relative(steps)`: rate-limited against the previous move
command, then `VE`, `DI`, `FL`. -/
def move_relative (st : MState) (steps : Int) (now : ℚ)
    (rVE rDI rFL : Option String) : Bool × MState × List Cmd :=
  if now - st.last_move_command_time < min_command_interval then
    (false, st, [])
  else
    let st1 := { st with last_move_command_time := now }
    let t1 := (sendCommand st1 (Cmd.VE st1.status.move_velocity) rVE).2
    let t2 := (sendCommand st1 (Cmd.DI steps) rDI).2
    let (r, t3) := sendCommand st1 Cmd.FL rFL
    match r with
    | some _ =>
      (true,
       { st1 with status.is_moving := true, last_move_time := now },
       t1 ++ t2 ++ t3)
    | none => (false, st1, t1 ++ t2 ++ t3)

/-- Method `move_to_position(target_steps)`: rate limit; stop current motion if
moving; read the encoder (`ep1` is the parsed reply); skip the move when
already exactly at the target; otherwise re-sync `SP` (second read `ep2`),
set velocity and issue the absolute `FP` feed. -/
def move_to_position (st : MState) (target_steps : Int) (now : ℚ)
    (rST : Option String) (ep1 ep2 : Option Int) (rSP rVE rFP : Option String) :
    Bool × MState × List Cmd :=
  if now - st.last_move_command_time < min_command_interval then
    (false, st, [])
  else
    let st1 := { st with last_move_command_time := now }
    let t0 := if st1.status.is_moving then (sendCommand st1 Cmd.ST rST).2 else []
    let (current, tEP) := get_encoder_position st1 ep1
    if current = some target_steps then (true, st1, t0 ++ tEP)
    else
      let tSync := sync_positions st1 ep2 rSP
      let tVE := (sendCommand st1 (Cmd.VE st1.status.move_velocity) rVE).2
      let (r, tFP) := sendCommand st1 (Cmd.FP (encoder_to_motor target_steps)) rFP
      match r with
      | some _ =>
        (true,
         { st1 with status.is_moving := true, last_move_time := now },
         t0 ++ tEP ++ tSync ++ tVE ++ tFP)
      | none => (false, st1, t0 ++ tEP ++ tSync ++ tVE ++ tFP)

/-! ## Alarm decoding and the poller's fault edge detection -/

/-- One hexadecimal digit, by code point (Python `int(_, 16)` accepts
lower and upper case): 48–57 are the decimal digits, 97–102 the lower
hex letters, 65–70 the upper hex letters. -/
def hexDigit (c : Char) : Option Nat :=
  let n := c.toNat
  if 48 ≤ n ∧ n ≤ 57 then some (n - 48)
  else if 97 ≤ n ∧ n ≤ 102 then some (n - 87)
  else if 65 ≤ n ∧ n ≤ 70 then some (n - 55)
  else none

/-- Python `int(s, 16)` on a plain string of hex digits; `none` models the
`ValueError` branch.  (Sign, `0x` prefix, underscore and surrounding
whitespace forms never occur in drive alarm codes and are out of the
modelled domain.) -/
def parseHex : String → Option Nat
  | ⟨[]⟩ => none
  | ⟨c :: cs⟩ =>
    (c :: cs).foldlM (fun a d => (hexDigit d).map fun v => a * 16 + v) 0

/-- The hard-coded STAC5 alarm table of `_decode_alarm`, in insertion
order. -/
def alarmTable : List (String × String) :=
  [("0000", "No Alarm"),
   ("0001", "Position Limit"),
   ("0002", "CCW Limit"),
   ("0004", "CW Limit"),
   ("0008", "Over Temp"),
   ("0010", "Internal Voltage"),
   ("0020", "Over Voltage"),
   ("0040", "Under Voltage"),
   ("0080", "Over Current"),
   ("0100", "Open Motor Winding"),
   ("0200", "Bad Encoder"),
   ("0400", "Comm Error"),
   ("0800", "Bad Flash"),
   ("1000", "No Move"),
   ("2000", "Blank Q Segment"),
   ("4000", "No Motor Connected"),
   ("8000", "Motor Disabled")]

/-- Method `_decode_alarm`: exact table match first, then hex-bitmask decode
collecting the message of every table bit present in the code, else a
generic `Unknown (...)`. -/
def decode_alarm (alarm_code : String) : String :=
  match alarmTable.lookup alarm_code with
  | some msg => msg
  | none =>
    match parseHex alarm_code with
    | none => "Unknown (" ++ alarm_code ++ ")"
    | some code =>
      if code = 0 then "No Alarm"
      else
        let alarms := alarmTable.filterMap fun p =>
          let bit := (parseHex p.1).getD 0
          if bit ≠ 0 ∧ code &&& bit ≠ 0 then some p.2 else none
        if alarms.isEmpty then "Unknown (" ++ alarm_code ++ ")"
        else String.intercalate ", " alarms

/-- One cycle of the alarm-handling tail of `_poll_loop`: `al` is what
`get_alarm_code` returned this cycle (`none` = no/empty reply, skipped by
`if al:`).  Returns the new `last_alarm` and the error notifications
fired. -/
def pollAlarmStep (last_alarm : String) (al : Option String) :
    String × List String :=
  match al with
  | none => (last_alarm, [])
  | some s =>
    if s = "" then (last_alarm, [])
    else if s ≠ "0000" ∧ s ≠ last_alarm then
      (s, ["FAULT " ++ s ++ ": " ++ decode_alarm s])
    else (s, [])

/-- The alarm edge detector folded over a run of poll cycles, starting
from `_poll_loop`'s initial `last_alarm = "0000"` when called with that
seed; returns every error notification in order. -/
def pollAlarms (last_alarm : String) : List (Option String) → List String
  | [] => []
  | al :: rest =>
    let (l, ns) := pollAlarmStep last_alarm al
    ns ++ pollAlarms l rest

/-- Specification-side view of the alarm bitmask: the named condition
documented for each bit position 0–15, written independently of the
string-keyed table that the code iterates. -/
def bitNames : List (Nat × String) :=
  [(0, "Position Limit"),
   (1, "CCW Limit"),
   (2, "CW Limit"),
   (3, "Over Temp"),
   (4, "Internal Voltage"),
   (5, "Over Voltage"),
   (6, "Under Voltage"),
   (7, "Over Current"),
   (8, "Open Motor Winding"),
   (9, "Bad Encoder"),
   (10, "Comm Error"),
   (11, "Bad Flash"),
   (12, "No Move"),
   (13, "Blank Q Segment"),
   (14, "No Motor Connected"),
   (15, "Motor Disabled")]

/-- Names of the recognized (documented) bits that are set in `n`,
lowest bit first. -/
def recognizedNames (n : Nat) : List String :=
  bitNames.filterMap fun p => if n.testBit p.1 then some p.2 else none

end Dart
namespace Dart

/-! # Verification of the specified properties -/

/-! ## C1 — state reset on disconnect -/

/-- C1 counterexample: `disconnect()` does NOT clear a previously saved
home or well position — after disconnecting a state with home saved at 5
and well saved at 8000, both saved positions are still present. -/
theorem C1_counterexample :
    (disconnect { connected := true,
                  status := { connected := true, home_position := some 5,
                              well_position := some 8000 } }).status.home_position
      = some 5 ∧
    (disconnect { connected := true,
                  status := { connected := true, home_position := some 5,
                              well_position := some 8000 } }).status.well_position
      = some 8000 :=
  ⟨rfl, rfl⟩

/-- C1 (amended): after `disconnect()`, the connection, motion,
motor-enabled, alarm, status and encoder fields of `DriveStatus` are back
at their construction defaults, but the saved home/well positions (and
the jog/move velocities) are retained, not cleared. -/
theorem C1_amended_disconnect_resets (st : MState) :
    (disconnect st).connected = false ∧
    (disconnect st).status.connected = false ∧
    (disconnect st).status.is_moving = false ∧
    (disconnect st).status.motor_enabled = false ∧
    (disconnect st).status.alarm_code = "0000" ∧
    (disconnect st).status.status_code = "0000" ∧
    (disconnect st).status.encoder_position = 0 ∧
    (disconnect st).status.home_position = st.status.home_position ∧
    (disconnect st).status.well_position = st.status.well_position ∧
    (disconnect st).status.jog_velocity = st.status.jog_velocity ∧
    (disconnect st).status.move_velocity = st.status.move_velocity :=
  ⟨rfl, rfl, rfl, rfl, rfl, rfl, rfl, rfl, rfl, rfl, rfl⟩

/-! ## C2 — fault edge detection in the poll loop -/

/-- C2: for the alarm readings `[0000, 0000, 0004, 0004, 0000]` the poll
loop emits exactly one fault notification, at the `0000 → 0004`
transition (none is emitted during the first two readings); and in
general a reading identical to the immediately preceding one never adds a
notification (so identical consecutive non-zero codes do not re-notify). -/
theorem C2_alarm_edge_detection :
    pollAlarms "0000" [some "0000", some "0000"] = [] ∧
    pollAlarms "0000"
        [some "0000", some "0000", some "0004", some "0004", some "0000"]
      = ["FAULT 0004: CW Limit"] ∧
    ∀ (last s : String) (rest : List (Option String)),
      pollAlarms last (some s :: some s :: rest)
        = pollAlarms last (some s :: rest) := by
  refine ⟨rfl, rfl, ?_⟩
  intro last s rest
  by_cases hs : s = ""
  · subst hs; simp [pollAlarms, pollAlarmStep]
  · by_cases h0 : s = "0000"
    · subst h0; simp [pollAlarms, pollAlarmStep]
    · by_cases hl : s = last
      · subst hl
        simp [pollAlarms, pollAlarmStep, hs, h0]
      · simp [pollAlarms, pollAlarmStep, hs, h0, hl]

/-! ## C3 — alarm bitmask decoding -/

/-- C3 counterexample: in the code `10004` (hex), the unrecognized set
bit `0x10000` is silently dropped because the recognized bit `0x0004` is
present: the decoded message is exactly the one of `0004` alone and
contains no generic `Unknown` report. -/
theorem C3_counterexample :
    decode_alarm "10004" = "CW Limit" ∧
    decode_alarm "10004" = decode_alarm "0004" ∧
    hasTok "Unknown" (decode_alarm "10004") = false := by
  refine ⟨rfl, rfl, ?_⟩
  decide

/-! ## C6 / C9 — jog lockout guards -/

/-- C6: `jog_start` is rejected immediately with no I/O while already
jogging, or within the 500 ms lockout window after the last recorded jog
stop; outside the window (and not jogging) it issues exactly the
direction-set, jog-speed and commence-jog commands, and succeeds when the
commence-jog command gets a reply. -/
theorem C6_jog_lockout (st : MState) (dir : Int) (now : ℚ)
    (rDI rJS rCJ : Option String) :
    (st.jog_active = true → jog_start st dir now rDI rJS rCJ = (false, st, [])) ∧
    (now - st.jog_stop_time < jog_decel_lockout →
      jog_start st dir now rDI rJS rCJ = (false, st, [])) ∧
    (st.jog_active = false → ¬ now - st.jog_stop_time < jog_decel_lockout →
      st.connected = true →
      (jog_start st dir now rDI rJS rCJ).2.2
        = [Cmd.DI (if dir ≥ 0 then 1 else -1), Cmd.JS st.status.jog_velocity,
           Cmd.CJ] ∧
      (rCJ.isSome = true → (jog_start st dir now rDI rJS rCJ).1 = true)) := by
  refine ⟨?_, ?_, ?_⟩
  · intro h; simp [jog_start, h]
  · intro h
    by_cases ha : st.jog_active <;> simp [jog_start, ha, h]
  · intro ha hlk hc
    constructor
    · simp only [jog_start, ha, Bool.false_eq_true, if_false, if_neg hlk,
                 sendCommand, hc, if_true]
      cases rCJ <;> simp
    · intro hr
      obtain ⟨r, hr⟩ := Option.isSome_iff_exists.mp hr
      subst hr
      simp [jog_start, ha, if_neg hlk, sendCommand, hc]

/-- C9 (implicit behaviour): `stop()` and `stop_kill()` both clear the
jogging-active flag and record the jog-stop timestamp, so a `jog_start`
issued less than the lockout duration after either of them is rejected
with no I/O, exactly as after `jog_stop`. -/
theorem C9_stop_applies_jog_lockout (st : MState) (t0 now : ℚ)
    (r0 rDI rJS rCJ : Option String) (dir : Int) :
    (stop st t0 r0).2.1.jog_active = false ∧
    (stop st t0 r0).2.1.jog_stop_time = t0 ∧
    (stop_kill st t0 r0).2.1.jog_active = false ∧
    (stop_kill st t0 r0).2.1.jog_stop_time = t0 ∧
    (now - t0 < jog_decel_lockout →
      jog_start ((stop st t0 r0).2.1) dir now rDI rJS rCJ
        = (false, (stop st t0 r0).2.1, []) ∧
      jog_start ((stop_kill st t0 r0).2.1) dir now rDI rJS rCJ
        = (false, (stop_kill st t0 r0).2.1, [])) := by
  refine ⟨rfl, rfl, rfl, rfl, ?_⟩
  intro h
  constructor
  · have hs : (stop st t0 r0).2.1.jog_stop_time = t0 := rfl
    have ha : (stop st t0 r0).2.1.jog_active = false := rfl
    simp [jog_start, ha, hs, h]
  · have hs : (stop_kill st t0 r0).2.1.jog_stop_time = t0 := rfl
    have ha : (stop_kill st t0 r0).2.1.jog_active = false := rfl
    simp [jog_start, ha, hs, h]

/-! ## C5 — rate limiting of move commands -/

/-- C5: a move command (`move_relative` or `move_to_position`) accepted at
time `t1` records `t1` as the last-move-command time; a second move
command issued less than 500 ms later is rejected — it returns `false`,
sends nothing to the drive and leaves the state (rate-limit timestamp and
motion flags included) completely unchanged; a second command issued at
least 500 ms later passes the rate gate (its timestamp is recorded). -/
theorem C5_move_rate_limit (st : MState) (t1 t2 : ℚ) (steps target : Int)
    (rVE rDI rFL rST : Option String) (ep1 ep2 : Option Int)
    (rSP rVE2 rFP : Option String) :
    (¬ t1 - st.last_move_command_time < min_command_interval →
      (move_relative st steps t1 rVE rDI rFL).2.1.last_move_command_time = t1 ∧
      (move_to_position st target t1 rST ep1 ep2 rSP rVE2 rFP).2.1.last_move_command_time
        = t1) ∧
    (st.last_move_command_time = t1 → t2 - t1 < min_command_interval →
      move_relative st steps t2 rVE rDI rFL = (false, st, []) ∧
      move_to_position st target t2 rST ep1 ep2 rSP rVE2 rFP = (false, st, [])) ∧
    (st.last_move_command_time = t1 → ¬ t2 - t1 < min_command_interval →
      (move_relative st steps t2 rVE rDI rFL).2.1.last_move_command_time = t2 ∧
      (move_to_position st target t2 rST ep1 ep2 rSP rVE2 rFP).2.1.last_move_command_time
        = t2) := by
  refine ⟨?_, ?_, ?_⟩
  · intro h
    constructor
    · simp only [move_relative, if_neg h]
      split <;> rfl
    · simp only [move_to_position, if_neg h]
      split
      · rfl
      · split <;> rfl
  · intro hst h
    have h2 : t2 - st.last_move_command_time < min_command_interval := by
      rw [hst]; exact h
    exact ⟨by simp [move_relative, h2], by simp [move_to_position, h2]⟩
  · intro hst h
    have h2 : ¬ t2 - st.last_move_command_time < min_command_interval := by
      rw [hst]; exact h
    constructor
    · simp only [move_relative, if_neg h2]
      split <;> rfl
    · simp only [move_to_position, if_neg h2]
      split
      · rfl
      · split <;> rfl

/-! ## C4 / C8 / C10 — absolute moves -/

/-- Helper: when the rate gate passes, the client is connected and the
encoder reading differs from the target, `move_to_position` puts the
absolute feed command `FP` (with the gear-scaled target) on the wire. -/
lemma move_to_position_issues_FP (st : MState) (target : Int) (now : ℚ)
    (rST : Option String) (ep1 ep2 : Option Int) (rSP rVE : Option String)
    (r : String)
    (hrate : ¬ now - st.last_move_command_time < min_command_interval)
    (hconn : st.connected = true) (hne : ep1 ≠ some target) :
    Cmd.FP (encoder_to_motor target)
      ∈ (move_to_position st target now rST ep1 ep2 rSP rVE (some r)).2.2 := by
  simp only [move_to_position, if_neg hrate, get_encoder_position, hconn,
             if_true, sendCommand]
  simp only [if_neg hne]
  simp [List.mem_append]

/-- C4: a `move_to_position(t)` call that passes the rate limit and whose
encoder reading equals `t` exactly returns success while issuing no
motion command at all (no velocity set, no position sync, no feed
command; only the possible pre-stop and the encoder read are on the
wire); and the equality test has no tolerance band: any reading that
differs from `t`, by as little as one count, leads to the absolute feed
command being issued. -/
theorem C4_move_skip_at_target (st : MState) (target : Int) (now : ℚ)
    (rST : Option String) (ep1 ep2 : Option Int) (rSP rVE rFP : Option String)
    (hrate : ¬ now - st.last_move_command_time < min_command_interval)
    (hconn : st.connected = true) :
    (ep1 = some target →
      (move_to_position st target now rST ep1 ep2 rSP rVE rFP).1 = true ∧
      ((move_to_position st target now rST ep1 ep2 rSP rVE rFP).2.2.all
         fun c => !(isMoveCmd c)) = true) ∧
    (∀ c : Int, ep1 = some c → c ≠ target → ∀ r : String, rFP = some r →
      Cmd.FP (encoder_to_motor target)
        ∈ (move_to_position st target now rST ep1 ep2 rSP rVE rFP).2.2) := by
  constructor
  · intro heq
    have hout : move_to_position st target now rST ep1 ep2 rSP rVE rFP
        = (true, { st with last_move_command_time := now },
           (if st.status.is_moving = true then [Cmd.ST] else []) ++ [Cmd.EP]) := by
      simp [move_to_position, if_neg hrate, get_encoder_position, hconn, heq,
            sendCommand]
    rw [hout]
    refine ⟨rfl, ?_⟩
    cases hm : st.status.is_moving <;> simp [hm, isMoveCmd]
  · intro c hc hne r hr
    subst hr
    apply move_to_position_issues_FP st target now rST ep1 ep2 rSP rVE r hrate hconn
    rw [hc]
    simp [hne]

/-- C8: the encoder-to-motor translation used for the absolute feed is
the integer truncation (toward zero) of the product of the encoder
position with the fixed gear ratio 5/2 — for positive, zero and negative
positions alike — and an issued absolute move transmits exactly that
gear-scaled value in its `FP` command. -/
theorem C8_encoder_to_motor_trunc :
    (∀ P : Int, encoder_to_motor P = (5 * P).tdiv 2) ∧
    (∀ (st : MState) (target : Int) (now : ℚ) (rST : Option String)
       (ep1 ep2 : Option Int) (rSP rVE : Option String) (r : String),
       ¬ now - st.last_move_command_time < min_command_interval →
       st.connected = true → ep1 ≠ some target →
       Cmd.FP ((5 * target).tdiv 2)
         ∈ (move_to_position st target now rST ep1 ep2 rSP rVE (some r)).2.2) := by
  have htd : ∀ P : Int, encoder_to_motor P = (5 * P).tdiv 2 := by
    intro e
    rcases le_or_lt 0 e with he | he
    · have hq : (0:ℚ) ≤ (e:ℚ) * (5/2) := by
        apply mul_nonneg _ (by norm_num)
        exact_mod_cast he
      rw [encoder_to_motor, gear_ratio, pyInt, if_pos hq,
          show (e:ℚ) * (5/2) = ((5*e : ℤ) : ℚ) / ((2:ℕ) : ℚ) by push_cast; ring,
          Rat.floor_intCast_div_natCast,
          Int.tdiv_eq_ediv (by omega) (by norm_num)]
      norm_num
    · have hq : (e:ℚ) * (5/2) < 0 := by
        apply mul_neg_of_neg_of_pos _ (by norm_num)
        exact_mod_cast he
      rw [encoder_to_motor, gear_ratio, pyInt, if_neg (not_le.mpr hq),
          show (e:ℚ) * (5/2) = -(((5*(-e) : ℤ) : ℚ) / ((2:ℕ) : ℚ)) by push_cast; ring,
          Int.ceil_neg, Rat.floor_intCast_div_natCast,
          show (5*e : ℤ) = -(5*(-e)) by ring,
          Int.neg_tdiv, Int.tdiv_eq_ediv (by omega) (by norm_num)]
      norm_num
  refine ⟨htd, ?_⟩
  intro st target now rST ep1 ep2 rSP rVE r hrate hconn hne
  rw [← htd]
  exact move_to_position_issues_FP st target now rST ep1 ep2 rSP rVE r hrate hconn hne

/-- C10 (implicit behaviour): a `move_to_position(t)` call that passes
the rate gate and finds the encoder already at `t` returns success and
still records the call time as the last move-command time, so any
`move_to_position` or `move_relative` issued within the next 500 ms is
rejected even though the skipped call sent no motion command. -/
theorem C10_skip_records_rate_limit (st : MState) (target target2 steps : Int)
    (now t2 : ℚ) (rST : Option String) (ep1 ep2 : Option Int)
    (rSP rVE rFP : Option String) (rVE2 rDI2 rFL2 rST2 : Option String)
    (ep1b ep2b : Option Int) (rSP2 rVE3 rFP2 : Option String)
    (hrate : ¬ now - st.last_move_command_time < min_command_interval)
    (hconn : st.connected = true) (heq : ep1 = some target) :
    (move_to_position st target now rST ep1 ep2 rSP rVE rFP).1 = true ∧
    (move_to_position st target now rST ep1 ep2 rSP rVE rFP).2.1.last_move_command_time
      = now ∧
    (t2 - now < min_command_interval →
      move_relative (move_to_position st target now rST ep1 ep2 rSP rVE rFP).2.1
          steps t2 rVE2 rDI2 rFL2
        = (false, (move_to_position st target now rST ep1 ep2 rSP rVE rFP).2.1, []) ∧
      move_to_position (move_to_position st target now rST ep1 ep2 rSP rVE rFP).2.1
          target2 t2 rST2 ep1b ep2b rSP2 rVE3 rFP2
        = (false, (move_to_position st target now rST ep1 ep2 rSP rVE rFP).2.1, [])) := by
  have hout : move_to_position st target now rST ep1 ep2 rSP rVE rFP
      = (true, { st with last_move_command_time := now },
         (if st.status.is_moving = true then [Cmd.ST] else []) ++ [Cmd.EP]) := by
    simp [move_to_position, if_neg hrate, get_encoder_position, hconn, heq,
          sendCommand]
  rw [hout]
  refine ⟨rfl, rfl, ?_⟩
  intro hlt
  have h2 : t2 - ({ st with last_move_command_time := now } : MState).last_move_command_time
      < min_command_interval := hlt
  exact ⟨by simp [move_relative, h2], by simp [move_to_position, h2]⟩

/-! ## C3 (amended) — what the decoder actually does with a bitmask -/

/-- Helper: the table traversal of `_decode_alarm` produces exactly the
names of the recognized bits 0–15 that are set in `m`, in bit order; bits
16 and above never contribute. -/
lemma alarm_filter_eq_recognizedNames (m : Nat) :
    (alarmTable.filterMap fun p =>
      let bit := (parseHex p.1).getD 0
      if bit ≠ 0 ∧ m &&& bit ≠ 0 then some p.2 else none)
    = recognizedNames m := by
  have hb : ∀ i : ℕ, (m &&& 2^i ≠ 0) = (m.testBit i = true) := by
    intro i
    rw [Nat.and_two_pow]
    cases h : m.testBit i <;> simp
  have h0 := hb 0; have h1 := hb 1; have h2 := hb 2; have h3 := hb 3
  have h4 := hb 4; have h5 := hb 5; have h6 := hb 6; have h7 := hb 7
  have h8 := hb 8; have h9 := hb 9; have h10 := hb 10; have h11 := hb 11
  have h12 := hb 12; have h13 := hb 13; have h14 := hb 14; have h15 := hb 15
  norm_num at h0 h1 h2 h3 h4 h5 h6 h7 h8 h9 h10 h11 h12 h13 h14 h15
  simp only [alarmTable, bitNames, recognizedNames, List.filterMap_cons,
             List.filterMap_nil]
  norm_num [show (parseHex "0000").getD 0 = 0 from rfl,
            show (parseHex "0001").getD 0 = 1 from rfl,
            show (parseHex "0002").getD 0 = 2 from rfl,
            show (parseHex "0004").getD 0 = 4 from rfl,
            show (parseHex "0008").getD 0 = 8 from rfl,
            show (parseHex "0010").getD 0 = 16 from rfl,
            show (parseHex "0020").getD 0 = 32 from rfl,
            show (parseHex "0040").getD 0 = 64 from rfl,
            show (parseHex "0080").getD 0 = 128 from rfl,
            show (parseHex "0100").getD 0 = 256 from rfl,
            show (parseHex "0200").getD 0 = 512 from rfl,
            show (parseHex "0400").getD 0 = 1024 from rfl,
            show (parseHex "0800").getD 0 = 2048 from rfl,
            show (parseHex "1000").getD 0 = 4096 from rfl,
            show (parseHex "2000").getD 0 = 8192 from rfl,
            show (parseHex "4000").getD 0 = 16384 from rfl,
            show (parseHex "8000").getD 0 = 32768 from rfl,
            h0, h1, h2, h3, h4, h5, h6, h7, h8, h9, h10, h11, h12, h13, h14, h15]

/-- C3 (amended): for a non-zero alarm bitmask that is not an exact table
key, the decoder joins the named conditions of the recognized set bits
(bits 0–15) into one composite message; a code with no recognized set bit
is reported generically as `Unknown (...)`; but unrecognized set bits
occurring together with recognized bits are silently dropped — the
message depends only on the recognized bits. -/
theorem C3_amended_decode (s : String) (n : Nat)
    (hlup : alarmTable.lookup s = none) (hhex : parseHex s = some n)
    (hn : n ≠ 0) :
    (recognizedNames n ≠ [] →
      decode_alarm s = String.intercalate ", " (recognizedNames n)) ∧
    (recognizedNames n = [] → decode_alarm s = "Unknown (" ++ s ++ ")") := by
  have hkey := alarm_filter_eq_recognizedNames n
  constructor
  · intro hne
    simp only [decode_alarm, hlup, hhex, if_neg hn, hkey]
    rw [if_neg]
    simp [List.isEmpty_iff, hne]
  · intro hnil
    simp only [decode_alarm, hlup, hhex, if_neg hn, hkey]
    rw [if_pos]
    simp [List.isEmpty_iff, hnil]

/-- C3 witness: a composite of two recognized bits (`0006`) decodes to
the joined message of its recognized bits, and a code with only an
unrecognized bit (`10000`) is reported generically. -/
theorem C3_amended_decode_witness :
    decode_alarm "0006" = String.intercalate ", " (recognizedNames 6) ∧
    decode_alarm "10000" = "Unknown (" ++ "10000" ++ ")" :=
  ⟨(C3_amended_decode "0006" 6 rfl rfl (by decide)).1 (by decide),
   (C3_amended_decode "10000" 65536 rfl rfl (by decide)).2 (by decide)⟩

/-! ## C7 — status-line parser contract -/

lemma lit_sound : ∀ (p cs r : List Char), lit p cs = some r → cs = p ++ r := by
  intro p
  induction p with
  | nil =>
    intro cs r h
    simp only [lit, Option.some.injEq] at h
    simp [h]
  | cons a as ih =>
    intro cs r h
    cases cs with
    | nil => simp [lit] at h
    | cons c cs2 =>
      simp only [lit] at h
      by_cases hca : c = a
      · rw [if_pos hca] at h
        rw [hca, List.cons_append, ih cs2 r h]
      · rw [if_neg hca] at h; cases h

lemma span1_sound (p : Char → Bool) (cs t r : List Char)
    (h : span1 p cs = some (t, r)) : cs = t ++ r := by
  unfold span1 at h
  split at h
  · cases h
  · simp only [Option.some.injEq, Prod.mk.injEq] at h
    rw [← h.1, ← h.2, List.takeWhile_append_dropWhile]

lemma signedDigits_sound (cs t r : List Char)
    (h : signedDigits cs = some (t, r)) : cs = t ++ r := by
  cases cs with
  | nil => simp [signedDigits] at h
  | cons c cs2 =>
    simp only [signedDigits] at h
    by_cases hc : c = '-'
    · rw [if_pos hc] at h
      cases e : span1 Char.isDigit cs2 with
      | none => rw [e] at h; cases h
      | some pr =>
        obtain ⟨t2, r2⟩ := pr
        rw [e] at h
        simp only [Option.some.injEq, Prod.mk.injEq] at h
        rw [← h.1, ← h.2, List.cons_append, ← span1_sound Char.isDigit cs2 t2 r2 e]
    · rw [if_neg hc] at h
      exact span1_sound Char.isDigit (c :: cs2) t r h

lemma savedField_sound (cs : List Char) (v : Option (List Char)) (r : List Char)
    (h : savedField cs = some (v, r)) : ∃ pre, cs = pre ++ r := by
  match cs with
  | [] => simp [savedField] at h
  | [c] =>
    simp only [savedField] at h
    by_cases hN : c = 'N'
    · rw [if_pos hN] at h
      simp only [Option.some.injEq, Prod.mk.injEq] at h
      exact ⟨[c], by rw [← h.2]; simp⟩
    · rw [if_neg hN] at h; cases h
  | c :: c2 :: rest2 =>
    simp only [savedField] at h
    by_cases hYA : c = 'Y' ∧ c2 = '@'
    · rw [if_pos hYA] at h
      cases e : signedDigits rest2 with
      | none => rw [e] at h; cases h
      | some pr =>
        obtain ⟨t2, r2⟩ := pr
        rw [e] at h
        simp only [Option.some.injEq, Prod.mk.injEq] at h
        refine ⟨c :: c2 :: t2, ?_⟩
        rw [List.cons_append, List.cons_append, ← h.2,
            ← signedDigits_sound rest2 t2 r2 e]
    · rw [if_neg hYA] at h
      by_cases hN : c = 'N'
      · rw [if_pos hN] at h
        simp only [Option.some.injEq, Prod.mk.injEq] at h
        exact ⟨[c], by rw [← h.2]; rfl⟩
      · rw [if_neg hN] at h; cases h

lemma occurs_nil_tok (l : List Char) : occurs [] l = true := by
  cases l <;> simp [occurs, List.isPrefixOf]

lemma isPrefixOf_append (t : List Char) {l : List Char} (b : List Char)
    (h : t.isPrefixOf l = true) : t.isPrefixOf (l ++ b) = true := by
  induction t generalizing l with
  | nil => simp [List.isPrefixOf]
  | cons a as ih =>
    cases l with
    | nil => simp [List.isPrefixOf] at h
    | cons c cs =>
      simp only [List.cons_append, List.isPrefixOf, Bool.and_eq_true] at h ⊢
      exact ⟨h.1, ih h.2⟩

lemma isPrefixOf_self_append (t b : List Char) : t.isPrefixOf (t ++ b) = true := by
  induction t with
  | nil => simp [List.isPrefixOf]
  | cons a as ih => simp [List.isPrefixOf, ih]

lemma occurs_append_right (t : List Char) (a : List Char) {b : List Char}
    (h : occurs t b = true) : occurs t (a ++ b) = true := by
  induction a with
  | nil => simpa
  | cons c a2 ih => simp [occurs, ih]

lemma occurs_append_left (t : List Char) {m : List Char} (b : List Char)
    (h : occurs t m = true) : occurs t (m ++ b) = true := by
  induction m with
  | nil =>
    simp only [occurs, List.isEmpty_iff] at h
    subst h
    exact occurs_nil_tok b
  | cons c m2 ih =>
    simp only [occurs, Bool.or_eq_true] at h
    rcases h with h | h
    · simp only [List.cons_append, occurs, Bool.or_eq_true]
      exact Or.inl (isPrefixOf_append t b h)
    · simp only [List.cons_append, occurs, Bool.or_eq_true]
      exact Or.inr (ih h)

lemma occurs_key (t b : List Char) (ht : t ≠ []) : occurs t (t ++ b) = true := by
  cases t with
  | nil => exact absurd rfl ht
  | cons a as => simp [occurs, isPrefixOf_self_append]

lemma occurs_cons (t : List Char) (c : Char) {cs : List Char}
    (h : occurs t cs = true) : occurs t (c :: cs) = true := by
  simp [occurs, h]

/-- Helper: a successful match of the status pattern contains every
required field marker. -/
lemma matchStatusAt_keys (cs : List Char) (g : StatusGroups)
    (h : matchStatusAt cs = some g) :
    occurs "POS:".data cs = true ∧ occurs "MODE:".data cs = true ∧
    occurs "SPD:".data cs = true ∧ occurs "HOME:".data cs = true ∧
    occurs "WELL:".data cs = true ∧ occurs "ESTOP:".data cs = true := by
  simp only [matchStatusAt] at h
  cases e0 : lit "POS:".data cs with
  | none => simp only [e0] at h; cases h
  | some r0 =>
  simp only [e0] at h
  cases e1 : signedDigits r0 with
  | none => simp only [e1] at h; cases h
  | some pr1 =>
  obtain ⟨pos, r1⟩ := pr1
  simp only [e1] at h
  cases e2 : span1 isPySpace r1 with
  | none => simp only [e2] at h; cases h
  | some pr2 =>
  obtain ⟨w2, r2⟩ := pr2
  simp only [e2] at h
  cases e3 : lit "MODE:".data r2 with
  | none => simp only [e3] at h; cases h
  | some r3 =>
  simp only [e3] at h
  cases e4 : span1 isWordChar r3 with
  | none => simp only [e4] at h; cases h
  | some pr4 =>
  obtain ⟨mode, r4⟩ := pr4
  simp only [e4] at h
  cases e5 : span1 isPySpace r4 with
  | none => simp only [e5] at h; cases h
  | some pr5 =>
  obtain ⟨w5, r5⟩ := pr5
  simp only [e5] at h
  cases e6 : lit "SPD:".data r5 with
  | none => simp only [e6] at h; cases h
  | some r6 =>
  simp only [e6] at h
  cases e7 : span1 isDigitDot r6 with
  | none => simp only [e7] at h; cases h
  | some pr7 =>
  obtain ⟨spd, r7⟩ := pr7
  simp only [e7] at h
  cases e8 : span1 isPySpace r7 with
  | none => simp only [e8] at h; cases h
  | some pr8 =>
  obtain ⟨w8, r8⟩ := pr8
  simp only [e8] at h
  cases e9 : lit "HOME:".data r8 with
  | none => simp only [e9] at h; cases h
  | some r9 =>
  simp only [e9] at h
  cases e10 : savedField r9 with
  | none => simp only [e10] at h; cases h
  | some pr10 =>
  obtain ⟨home, r10⟩ := pr10
  simp only [e10] at h
  cases e11 : span1 isPySpace r10 with
  | none => simp only [e11] at h; cases h
  | some pr11 =>
  obtain ⟨w11, r11⟩ := pr11
  simp only [e11] at h
  cases e12 : lit "WELL:".data r11 with
  | none => simp only [e12] at h; cases h
  | some r12 =>
  simp only [e12] at h
  cases e13 : savedField r12 with
  | none => simp only [e13] at h; cases h
  | some pr13 =>
  obtain ⟨well, r13⟩ := pr13
  simp only [e13] at h
  cases e14 : span1 isPySpace r13 with
  | none => simp only [e14] at h; cases h
  | some pr14 =>
  obtain ⟨w14, r14⟩ := pr14
  simp only [e14] at h
  cases e15 : lit "ESTOP:".data r14 with
  | none => simp only [e15] at h; cases h
  | some r15 =>
  have hcs := lit_sound _ _ _ e0
  have hr0 := signedDigits_sound _ _ _ e1
  have hr1 := span1_sound _ _ _ _ e2
  have hr2 := lit_sound _ _ _ e3
  have hr3 := span1_sound _ _ _ _ e4
  have hr4 := span1_sound _ _ _ _ e5
  have hr5 := lit_sound _ _ _ e6
  have hr6 := span1_sound _ _ _ _ e7
  have hr7 := span1_sound _ _ _ _ e8
  have hr8 := lit_sound _ _ _ e9
  obtain ⟨p10, hr9⟩ := savedField_sound _ _ _ e10
  have hr10 := span1_sound _ _ _ _ e11
  have hr11 := lit_sound _ _ _ e12
  obtain ⟨p13, hr12⟩ := savedField_sound _ _ _ e13
  have hr13 := span1_sound _ _ _ _ e14
  have hr14 := lit_sound _ _ _ e15
  refine ⟨?_, ?_, ?_, ?_, ?_, ?_⟩
  · rw [hcs]
    apply occurs_key
    decide
  · rw [hcs, hr0, hr1, hr2]
    apply occurs_append_right
    apply occurs_append_right
    apply occurs_append_right
    apply occurs_key
    decide
  · rw [hcs, hr0, hr1, hr2, hr3, hr4, hr5]
    apply occurs_append_right
    apply occurs_append_right
    apply occurs_append_right
    apply occurs_append_right
    apply occurs_append_right
    apply occurs_append_right
    apply occurs_key
    decide
  · rw [hcs, hr0, hr1, hr2, hr3, hr4, hr5, hr6, hr7, hr8]
    apply occurs_append_right
    apply occurs_append_right
    apply occurs_append_right
    apply occurs_append_right
    apply occurs_append_right
    apply occurs_append_right
    apply occurs_append_right
    apply occurs_append_right
    apply occurs_append_right
    apply occurs_key
    decide
  · rw [hcs, hr0, hr1, hr2, hr3, hr4, hr5, hr6, hr7, hr8, hr9, hr10, hr11]
    apply occurs_append_right
    apply occurs_append_right
    apply occurs_append_right
    apply occurs_append_right
    apply occurs_append_right
    apply occurs_append_right
    apply occurs_append_right
    apply occurs_append_right
    apply occurs_append_right
    apply occurs_append_right
    apply occurs_append_right
    apply occurs_append_right
    apply occurs_key
    decide
  · rw [hcs, hr0, hr1, hr2, hr3, hr4, hr5, hr6, hr7, hr8, hr9, hr10, hr11, hr12, hr13, hr14]
    apply occurs_append_right
    apply occurs_append_right
    apply occurs_append_right
    apply occurs_append_right
    apply occurs_append_right
    apply occurs_append_right
    apply occurs_append_right
    apply occurs_append_right
    apply occurs_append_right
    apply occurs_append_right
    apply occurs_append_right
    apply occurs_append_right
    apply occurs_append_right
    apply occurs_append_right
    apply occurs_append_right
    apply occurs_key
    decide

/-- Helper: a successful search contains every required field marker. -/
lemma searchStatus_keys (cs : List Char) (g : StatusGroups)
    (h : searchStatus cs = some g) :
    occurs "POS:".data cs = true ∧ occurs "MODE:".data cs = true ∧
    occurs "SPD:".data cs = true ∧ occurs "HOME:".data cs = true ∧
    occurs "WELL:".data cs = true ∧ occurs "ESTOP:".data cs = true := by
  induction cs with
  | nil =>
    simp only [searchStatus] at h
    exact matchStatusAt_keys [] g h
  | cons c cs2 ih =>
    simp only [searchStatus] at h
    cases e : matchStatusAt (c :: cs2) with
    | some g2 => exact matchStatusAt_keys (c :: cs2) g2 e
    | none =>
      simp only [e] at h
      have hk := ih h
      exact ⟨occurs_cons _ c hk.1, occurs_cons _ c hk.2.1,
             occurs_cons _ c hk.2.2.1, occurs_cons _ c hk.2.2.2.1,
             occurs_cons _ c hk.2.2.2.2.1, occurs_cons _ c hk.2.2.2.2.2⟩

lemma reverse_dropWhile_suffix (p : Char → Bool) (l : List Char) :
    ∃ b, l = (l.reverse.dropWhile p).reverse ++ b := by
  refine ⟨(l.reverse.takeWhile p).reverse, ?_⟩
  calc l = (l.reverse).reverse := (List.reverse_reverse l).symm
    _ = (l.reverse.takeWhile p ++ l.reverse.dropWhile p).reverse := by
        rw [List.takeWhile_append_dropWhile]
    _ = (l.reverse.dropWhile p).reverse ++ (l.reverse.takeWhile p).reverse :=
        List.reverse_append _ _

/-- Helper: stripping only removes a prefix and a suffix. -/
lemma pyStripL_between (cs : List Char) : ∃ a b, cs = a ++ (pyStripL cs ++ b) := by
  obtain ⟨b, hb⟩ := reverse_dropWhile_suffix isPySpace (cs.dropWhile isPySpace)
  refine ⟨cs.takeWhile isPySpace, b, ?_⟩
  rw [pyStripL, ← hb]
  exact (List.takeWhile_append_dropWhile isPySpace cs).symm

/-- Helper: a parsed status line contains every required field marker. -/
lemma parse_status_keys (s : String) (w : WinchStatus)
    (h : parse_status s = some w) :
    hasTok "POS:" s = true ∧ hasTok "MODE:" s = true ∧
    hasTok "SPD:" s = true ∧ hasTok "HOME:" s = true ∧
    hasTok "WELL:" s = true ∧ hasTok "ESTOP:" s = true := by
  simp only [parse_status] at h
  by_cases hs : s = ""
  · rw [if_pos hs] at h; cases h
  · rw [if_neg hs] at h
    cases e : searchStatus (pyStrip s).data with
    | none => simp only [e] at h; cases h
    | some g =>
      have hk := searchStatus_keys (pyStrip s).data g e
      have hd : (pyStrip s).data = pyStripL s.data := rfl
      rw [hd] at hk
      obtain ⟨a, b, hab⟩ := pyStripL_between s.data
      have lift : ∀ t : List Char, occurs t (pyStripL s.data) = true →
          occurs t s.data = true := by
        intro t ht
        have h2 := occurs_append_right t a (occurs_append_left t b ht)
        rw [← hab] at h2
        exact h2
      exact ⟨lift _ hk.1, lift _ hk.2.1, lift _ hk.2.2.1, lift _ hk.2.2.2.1,
             lift _ hk.2.2.2.2.1, lift _ hk.2.2.2.2.2⟩

/-- C7: the canonical status line parses to exactly the expected record
(position 12345, mode IDLE, home 0, well 8000, e-stop inactive, velocity
fields at their configured defaults); the empty line yields `none`; and
every input that is empty or lacks any required field marker (`POS:`,
`MODE:`, `SPD:`, `HOME:`, `WELL:`, `ESTOP:`) yields `none` — never a
partially populated record. -/
theorem C7_parse_status_contract :
    parse_status "POS:12345 MODE:IDLE SPD:0.00 HOME:Y@0 WELL:Y@8000 ESTOP:0"
      = some { position := 12345, mode := .IDLE, speed_rps := 0,
               home_saved := true, home_position := some 0,
               well_saved := true, well_position := some 8000,
               estop_active := false, max_jog_rps := 10, max_move_rps := 15/2,
               raw_response :=
                 "POS:12345 MODE:IDLE SPD:0.00 HOME:Y@0 WELL:Y@8000 ESTOP:0" } ∧
    parse_status "" = none ∧
    (∀ s : String,
      (s = "" ∨ hasTok "POS:" s = false ∨ hasTok "MODE:" s = false ∨
       hasTok "SPD:" s = false ∨ hasTok "HOME:" s = false ∨
       hasTok "WELL:" s = false ∨ hasTok "ESTOP:" s = false) →
      parse_status s = none) := by
  refine ⟨?_, rfl, ?_⟩
  · have hne : ("POS:12345 MODE:IDLE SPD:0.00 HOME:Y@0 WELL:Y@8000 ESTOP:0" : String)
        = "" ↔ False := by simp
    have hsearch : searchStatus
        (pyStrip "POS:12345 MODE:IDLE SPD:0.00 HOME:Y@0 WELL:Y@8000 ESTOP:0").data
        = some ⟨"12345".data, "IDLE".data, "0.00".data, some "0".data,
                some "8000".data, '0', none, none⟩ := by decide
    have hsplit : "0.00".data.splitOn '.' = [['0'], ['0', '0']] := by decide
    have hf : parseUFloat "0.00".data = some 0 := by
      rw [parseUFloat, hsplit]
      norm_num [digitsToNat]
    simp only [parse_status, hne, if_false, hsearch, Option.bind, hf]
    rfl
  intro s hdisj
  cases e : parse_status s with
  | none => rfl
  | some w =>
    exfalso
    have hk := parse_status_keys s w e
    rcases hdisj with hc|hc|hc|hc|hc|hc|hc
    · subst hc; cases e
    · rw [hk.1] at hc; cases hc
    · rw [hk.2.1] at hc; cases hc
    · rw [hk.2.2.1] at hc; cases hc
    · rw [hk.2.2.2.1] at hc; cases hc
    · rw [hk.2.2.2.2.1] at hc; cases hc
    · rw [hk.2.2.2.2.2] at hc; cases hc

/-- C7 witness: a line missing the SPD (and later) fields is rejected. -/
theorem C7_parse_status_contract_witness :
    parse_status "POS:12345 MODE:IDLE" = none :=
  C7_parse_status_contract.2.2 "POS:12345 MODE:IDLE"
    (Or.inr (Or.inr (Or.inr (Or.inl (by decide)))))

/-! ## Witnesses for the guarded motion theorems -/

/-- C4 witness at a concrete state already at the target. -/
theorem C4_move_skip_at_target_witness :
    (move_to_position { connected := true } 7 1 none (some 7) none none none none).1
      = true ∧
    ((move_to_position { connected := true } 7 1 none (some 7) none none none none).2.2.all
       fun c => !(isMoveCmd c)) = true :=
  (C4_move_skip_at_target { connected := true } 7 1 none (some 7) none none none
     none (by norm_num [min_command_interval]) rfl).1 rfl

/-- C5 witness: a second move 250 ms after an accepted one is rejected
unchanged. -/
theorem C5_move_rate_limit_witness :
    move_relative { last_move_command_time := 1 } 5 (5/4) none none none
      = (false, { last_move_command_time := 1 }, []) ∧
    move_to_position { last_move_command_time := 1 } 9 (5/4) none none none none
        none none
      = (false, { last_move_command_time := 1 }, []) :=
  (C5_move_rate_limit { last_move_command_time := 1 } 1 (5/4) 5 9 none none none
     none none none none none none).2.1 rfl (by norm_num [min_command_interval])

/-- C6 witness: an unobstructed jog start issues exactly the three
commands and succeeds. -/
theorem C6_jog_lockout_witness :
    (jog_start { connected := true } 1 1 none none (some "%")).2.2
      = [Cmd.DI 1, Cmd.JS 2, Cmd.CJ] ∧
    (jog_start { connected := true } 1 1 none none (some "%")).1 = true := by
  have h := (C6_jog_lockout { connected := true } 1 1 none none (some "%")).2.2
      rfl (by norm_num [jog_decel_lockout]) rfl
  exact ⟨by rw [h.1]; decide, h.2 rfl⟩

/-- C8 witness: concrete translation values and a concrete issued move. -/
theorem C8_encoder_to_motor_trunc_witness :
    encoder_to_motor 3 = ((5 * 3 : ℤ)).tdiv 2 ∧
    Cmd.FP (((5 * 9 : ℤ)).tdiv 2)
      ∈ (move_to_position { connected := true } 9 1 none (some 3) none none none
          (some "ok")).2.2 :=
  ⟨C8_encoder_to_motor_trunc.1 3,
   C8_encoder_to_motor_trunc.2 { connected := true } 9 1 none (some 3) none none
     none "ok" (by norm_num [min_command_interval]) rfl (by decide)⟩

/-- C9 witness: a jog start 250 ms after `stop`/`stop_kill` is rejected. -/
theorem C9_stop_applies_jog_lockout_witness :
    jog_start ((stop ({} : MState) 1 none).2.1) 1 (5/4) none none none
      = (false, (stop ({} : MState) 1 none).2.1, []) ∧
    jog_start ((stop_kill ({} : MState) 1 none).2.1) 1 (5/4) none none none
      = (false, (stop_kill ({} : MState) 1 none).2.1, []) :=
  (C9_stop_applies_jog_lockout {} 1 (5/4) none none none none 1).2.2.2.2
    (by norm_num [jog_decel_lockout])

/-- C10 witness: the skipped move returns success, records its time, and
blocks a relative move 250 ms later. -/
theorem C10_skip_records_rate_limit_witness :
    (move_to_position { connected := true } 7 1 none (some 7) none none none none).1
      = true ∧
    (move_to_position { connected := true } 7 1 none (some 7) none none none
        none).2.1.last_move_command_time = 1 ∧
    move_relative
        (move_to_position { connected := true } 7 1 none (some 7) none none none
          none).2.1 5 (5/4) none none none
      = (false,
         (move_to_position { connected := true } 7 1 none (some 7) none none none
           none).2.1, []) := by
  have h := C10_skip_records_rate_limit { connected := true } 7 8 5 1 (5/4) none
      (some 7) none none none none none none none none none none none none none
      (by norm_num [min_command_interval]) rfl rfl
  exact ⟨h.1, h.2.1, (h.2.2 (by norm_num [min_command_interval])).1⟩

end Dart
